import Mathlib

/-!
Verification of the rent-fair-value inference engine (src/content.js) against its
natural-language specification.  The JavaScript source is shallowly embedded:
JS numbers are modelled by `JSNum` (a rational together with the special values
NaN / Infinity / -Infinity), JS objects used as string-keyed maps are modelled
by `String → Option JSNum`, and JS arrays by Lean lists with `Option`-valued
out-of-range access (an out-of-range read yields `undefined` in JS).
Unbounded `while (true)` loops are modelled with an explicit fuel parameter.
-/

namespace RFV

/-- A JavaScript number: a finite value (modelled as a rational, which is exact
for every value appearing in the claims) or one of the special values
NaN, Infinity, -Infinity. -/
inductive JSNum where
  | num : ℚ → JSNum
  | nan : JSNum
  | inf : JSNum
  | ninf : JSNum
deriving DecidableEq, Repr

namespace JSNum

/-- JS `Number.isNaN`. -/
def isNaN : JSNum → Bool
  | nan => true
  | _ => false

/-- A JS number is finite when it is neither NaN nor infinite. -/
def isFinite : JSNum → Bool
  | num _ => true
  | _ => false

/-- JS `<` on numbers: any comparison with NaN is false; -Infinity is below
every other value and Infinity above. -/
def lt : JSNum → JSNum → Bool
  | num a, num b => decide (a < b)
  | nan, _ => false
  | _, nan => false
  | inf, _ => false
  | ninf, inf => true
  | ninf, num _ => true
  | ninf, ninf => false
  | num _, inf => true
  | num _, ninf => false

/-- JS `+` on numbers. -/
def add : JSNum → JSNum → JSNum
  | num a, num b => num (a + b)
  | nan, _ => nan
  | _, nan => nan
  | inf, ninf => nan
  | ninf, inf => nan
  | inf, _ => inf
  | _, inf => inf
  | ninf, _ => ninf
  | _, ninf => ninf

/-- JS unary minus on numbers. -/
def neg : JSNum → JSNum
  | num a => num (-a)
  | nan => nan
  | inf => ninf
  | ninf => inf

/-- JS `-` on numbers. -/
def sub (a b : JSNum) : JSNum := add a (neg b)

/-- JS `*` on numbers. -/
def mul : JSNum → JSNum → JSNum
  | num a, num b => num (a * b)
  | nan, _ => nan
  | _, nan => nan
  | inf, num a => if a = 0 then nan else if 0 < a then inf else ninf
  | num a, inf => if a = 0 then nan else if 0 < a then inf else ninf
  | ninf, num a => if a = 0 then nan else if 0 < a then ninf else inf
  | num a, ninf => if a = 0 then nan else if 0 < a then ninf else inf
  | inf, inf => inf
  | inf, ninf => ninf
  | ninf, inf => ninf
  | ninf, ninf => inf

/-- JS `/` on numbers (division by zero yields an infinity, 0/0 yields NaN;
the embedding has no negative zero, so a zero divisor counts as +0). -/
def div : JSNum → JSNum → JSNum
  | num a, num b =>
      if b = 0 then (if a = 0 then nan else if 0 < a then inf else ninf)
      else num (a / b)
  | nan, _ => nan
  | _, nan => nan
  | inf, num b => if 0 ≤ b then inf else ninf
  | ninf, num b => if 0 ≤ b then ninf else inf
  | num _, inf => num 0
  | num _, ninf => num 0
  | inf, inf => nan
  | inf, ninf => nan
  | ninf, inf => nan
  | ninf, ninf => nan

/-- JS `Math.round`: round half towards positive infinity; NaN and the
infinities are returned unchanged. -/
def round : JSNum → JSNum
  | num a => num ((⌊a + 1/2⌋ : ℤ) : ℚ)
  | nan => nan
  | inf => inf
  | ninf => ninf

end JSNum

/-! ## JS `parseFloat` -/

/-- Whitespace characters skipped by `parseFloat`. -/
def jsWhitespace (c : Char) : Bool :=
  c = ' ' ∨ c = '\t' ∨ c = '\n' ∨ c = '\r'

/-- Numeric value of a list of decimal digit characters. -/
def natOfDigits (l : List Char) : Nat :=
  l.foldl (fun acc c => 10 * acc + (c.toNat - 48)) 0

/-- Parse an optional exponent part `e`/`E` [sign] digits; a malformed
exponent is ignored (`parseFloat` keeps the longest valid numeric prefix). -/
def parseExponent (l : List Char) : Int :=
  match l with
  | 'e' :: rest | 'E' :: rest =>
      let (neg, r) :=
        match rest with
        | '-' :: r => (true, r)
        | '+' :: r => (false, r)
        | _ => (false, rest)
      let ds := r.takeWhile Char.isDigit
      if ds = [] then 0
      else if neg then -(natOfDigits ds : Int) else (natOfDigits ds : Int)
  | _ => 0

/-- Parse digits `[. digits] [exponent]`; NaN when no digit is present. -/
def parseMantissa (neg : Bool) (l : List Char) : JSNum :=
  let intPart := l.takeWhile Char.isDigit
  let rest1 := l.dropWhile Char.isDigit
  let fracPart :=
    match rest1 with
    | '.' :: r => r.takeWhile Char.isDigit
    | _ => []
  let rest2 :=
    match rest1 with
    | '.' :: r => r.dropWhile Char.isDigit
    | _ => rest1
  if intPart = [] ∧ fracPart = [] then JSNum.nan
  else
    let m : ℚ := (natOfDigits intPart : ℚ) + (natOfDigits fracPart : ℚ) / (10 ^ fracPart.length)
    let v : ℚ := m * (10 : ℚ) ^ parseExponent rest2
    JSNum.num (if neg then -v else v)

/-- Parse after the optional sign: `Infinity` or a decimal mantissa. -/
def parseSigned (neg : Bool) (l : List Char) : JSNum :=
  if ['I', 'n', 'f', 'i', 'n', 'i', 't', 'y'].isPrefixOf l then
    (if neg then JSNum.ninf else JSNum.inf)
  else parseMantissa neg l

/-- JS `parseFloat` on a list of characters. -/
def jsParseFloatChars (l : List Char) : JSNum :=
  let l1 := l.dropWhile jsWhitespace
  match l1 with
  | '-' :: r => parseSigned true r
  | '+' :: r => parseSigned false r
  | _ => parseSigned false l1

/-- JS `parseFloat` on a string. -/
def jsParseFloat (s : String) : JSNum := jsParseFloatChars s.data

/-! ## Model artifact (XGBoostPredictor, src/content.js lines 1945-2037) -/

/-- An element of a `base_score` JSON array: a number or a string. -/
inductive BaseScoreElem where
  | num : ℚ → BaseScoreElem
  | str : String → BaseScoreElem
deriving DecidableEq, Repr

/-- The raw `learner.learner_model_param.base_score` JSON value: a plain
number, a string (possibly bracketed, e.g. `"[8.399085E0]"`), or an array. -/
inductive BaseScoreRaw where
  | num : ℚ → BaseScoreRaw
  | str : String → BaseScoreRaw
  | arr : List BaseScoreElem → BaseScoreRaw
deriving DecidableEq, Repr

/-- `raw.replace(/[\x5b\x5d]/g, '')`: drop every square bracket character. -/
def stripBrackets (l : List Char) : List Char :=
  l.filter (fun c => ¬ (c = '[' ∨ c = ']'))

/-- The base-score normalization performed identically in `load` and
`predict`: bracket-strip a string value, take the first element of an array
value (`parseFloat(undefined)` is NaN for an empty array), then `parseFloat`
(which is the identity on an already numeric value). -/
def parseBaseScore : BaseScoreRaw → JSNum
  | .num q => JSNum.num q
  | .str s => jsParseFloatChars (stripBrackets s.data)
  | .arr [] => JSNum.nan
  | .arr (.num q :: _) => JSNum.num q
  | .arr (.str s :: _) => jsParseFloat s

/-- One tree of the ensemble: the parallel per-node arrays of the XGBoost
JSON format.  `default_left` may be absent (`tree.default_left ? ... : true`). -/
structure Tree where
  left_children : List Int
  right_children : List Int
  split_indices : List Nat
  split_conditions : List ℚ
  default_left : Option (List Bool)
deriving DecidableEq, Repr

/-- The parsed model JSON, restricted to the fields the predictor reads. -/
structure ModelJson where
  base_score : BaseScoreRaw
  trees : List Tree
deriving DecidableEq, Repr

/-- JS array indexing where the index itself may be `undefined`
(`none`): both an undefined index and an out-of-range or negative index
yield `undefined`. -/
def jsIndex {α : Type} (l : List α) : Option Int → Option α
  | none => none
  | some i => if 0 ≤ i then l[i.toNat]? else none

/-- `parseFloat(tree.split_conditions[nodeId])`: NaN when the read is
out of range (`parseFloat(undefined)` is NaN). -/
def splitCondAt (t : Tree) (nid : Option Int) : JSNum :=
  match jsIndex t.split_conditions nid with
  | some q => JSNum.num q
  | none => JSNum.nan

/-- `tree.default_left ? tree.default_left[nodeId] : true`; an out-of-range
read yields `undefined`, which is falsy. -/
def defaultLeftAt (t : Tree) (nid : Option Int) : Bool :=
  match t.default_left with
  | none => true
  | some dl => (jsIndex dl nid).getD false

/-- `XGBoostPredictor.predictTree`: iterate from the given node; a node is a
leaf iff its `left_children` entry is -1, in which case the leaf value is read
from `split_conditions`; otherwise the feature value is
`features[splitIndex] ?? 0` (so it is never null/undefined at the NaN test),
NaN routes to the `defaultLeft` direction, and otherwise the walk goes left
iff `featureValue < splitCondition`.  The JS `while (true)` loop is given
explicit fuel; `none` means the fuel ran out. -/
def predictTreeAux : Nat → Tree → List JSNum → Option Int → Option JSNum
  | 0, _, _, _ => none
  | Nat.succ fuel, t, fs, nid =>
    let leftChild := jsIndex t.left_children nid
    let rightChild := jsIndex t.right_children nid
    if leftChild = some (-1) then
      some (splitCondAt t nid)
    else
      let splitIndex := jsIndex t.split_indices nid
      let splitCondition := splitCondAt t nid
      let featureValue := (splitIndex.bind (fun i => fs[i]?)).getD (JSNum.num 0)
      let nextNode :=
        if featureValue.isNaN then (if defaultLeftAt t nid then leftChild else rightChild)
        else if featureValue.lt splitCondition then leftChild
        else rightChild
      predictTreeAux fuel t fs nextNode

/-- The predictor's loaded state: parsed model JSON, parsed feature-order
array, and the `loaded` flag. -/
structure PredictorState where
  model : ModelJson
  features : List String
  loaded : Bool
deriving DecidableEq, Repr

/-- A feature vector: a JS object used as a map from feature name to number;
`none` is an absent key (`undefined`). -/
def FeatureDict : Type := String → Option JSNum

/-- `this.features.map(name => featureDict[name] ?? 0)`. -/
def buildFeatureArray (features : List String) (dict : FeatureDict) : List JSNum :=
  features.map (fun name => (dict name).getD (JSNum.num 0))

/-- The summation loop of `predict`: `sum += this.predictTree(tree, featureArray)`
over all trees, starting from the base score. -/
def sumTrees (fuel : Nat) (ts : List Tree) (fs : List JSNum) (acc : JSNum) : Option JSNum :=
  match ts with
  | [] => some acc
  | t :: rest =>
      (predictTreeAux fuel t fs (some 0)).bind
        (fun v => sumTrees fuel rest fs (JSNum.add acc v))

/-- `XGBoostPredictor.predict`: throws "Model not loaded" when not loaded,
otherwise builds the ordered feature array, normalizes the base score and sums
the tree contributions.  The inner `Option` is fuel exhaustion of the
(unboundedly looping) tree walk. -/
def predict (fuel : Nat) (st : PredictorState) (dict : FeatureDict) :
    Except String (Option JSNum) :=
  if st.loaded = false then .error "Model not loaded"
  else
    .ok (sumTrees fuel st.model.trees (buildFeatureArray st.features dict)
          (parseBaseScore st.model.base_score))

/-! ### Specification-side evaluator (from the spec's words, for the C1
refinement): traversal reads `vector[featureOrder[splitIndex[node]]]`,
defaulting missing-name lookups to 0. -/

/-- Modelled from the spec: `treeValue` traverses from node 0; leaf iff
`leftChild == -1` with the leaf value read from `splitCondition`; otherwise
`value = vector[featureOrder[splitIndex[node]]]` defaulting missing-name
lookups to 0; NaN moves in the `defaultLeft` direction, otherwise left iff
`value < splitCondition`. -/
def specTreeValue : Nat → Tree → List String → FeatureDict → Option Int → Option JSNum
  | 0, _, _, _, _ => none
  | Nat.succ fuel, t, featureOrder, dict, nid =>
    let leftChild := jsIndex t.left_children nid
    let rightChild := jsIndex t.right_children nid
    if leftChild = some (-1) then
      some (splitCondAt t nid)
    else
      let splitIndex := jsIndex t.split_indices nid
      let splitCondition := splitCondAt t nid
      let featureValue := ((splitIndex.bind (fun i => featureOrder[i]?)).bind dict).getD (JSNum.num 0)
      let nextNode :=
        if featureValue.isNaN then (if defaultLeftAt t nid then leftChild else rightChild)
        else if featureValue.lt splitCondition then leftChild
        else rightChild
      specTreeValue fuel t featureOrder dict nextNode

/-- Modelled from the spec: the summation `baseScore + Σ treeValue(tree, vector)`. -/
def sumTreesSpec (fuel : Nat) : List Tree → List String → FeatureDict → JSNum → Option JSNum
  | [], _, _, acc => some acc
  | t :: rest, fo, d, acc =>
      (specTreeValue fuel t fo d (some 0)).bind
        (fun v => sumTreesSpec fuel rest fo d (JSNum.add acc v))

/-- Modelled from the spec: `evaluate(vector) = baseScore + Σ treeValue(tree, vector)`. -/
def specEvaluate (fuel : Nat) (st : PredictorState) (dict : FeatureDict) : Option JSNum :=
  sumTreesSpec fuel st.model.trees st.features dict (parseBaseScore st.model.base_score)

/-! ## Regex-lite engine

The floor/exclusion/normalization regexes of `XGBFeatures` use only literal
runs, `\s*` / `\s+` gaps, and `\b` word boundaries (a trailing `\s*(?:floor)?`
or similar optional suffix can match the empty string and never affects
whether the whole pattern matches, so it is dropped in translation).  Such a
pattern is matched deterministically: a gap is skipped maximally, which is
equivalent to backtracking because every token after a gap starts with a
non-whitespace character. -/

/-- One token of a translated regex: a literal run (stored lowercase, matched
case-insensitively), a whitespace gap (`true` = `\s+`, `false` = `\s*`), or a
`\b` word boundary. -/
inductive RTok where
  | lit : List Char → RTok
  | gap : Bool → RTok
  | wb : RTok
deriving DecidableEq, Repr

/-- JS regex `\w`: ASCII letter, digit or underscore. -/
def isWordChar (c : Char) : Bool := c.isAlphanum ∨ c = '_'

/-- JS regex `\s` (the ASCII part, all that occurs in the repository's data). -/
def isWsChar (c : Char) : Bool :=
  c = ' ' ∨ c = '\t' ∨ c = '\n' ∨ c = '\r' ∨ c = '\x0b' ∨ c = '\x0c'

/-- Case-insensitive prefix test against an already-lowercased pattern. -/
def ciPrefix : List Char → List Char → Bool
  | [], _ => true
  | _ :: _, [] => false
  | p :: ps, c :: cs => (Char.toLower c = p) ∧ ciPrefix ps cs

/-- Match a token list at the current position; `prev` is the character just
before the position (for `\b`).  Returns the rest of the input on success. -/
def matchToksFrom : List RTok → Option Char → List Char → Option (List Char)
  | [], _, s => some s
  | RTok.lit w :: rest, prev, s =>
      if ciPrefix w s then
        matchToksFrom rest
          (match w.getLast? with | some c => some c | none => prev) (s.drop w.length)
      else none
  | RTok.gap req :: rest, prev, s =>
      let skipped := s.takeWhile isWsChar
      let s1 := s.dropWhile isWsChar
      if req ∧ skipped = [] then none
      else
        matchToksFrom rest
          (match skipped.getLast? with | some c => some c | none => prev) s1
  | RTok.wb :: rest, prev, s =>
      let before := match prev with | some c => isWordChar c | none => false
      let after := match s with | c :: _ => isWordChar c | [] => false
      if before ≠ after then matchToksFrom rest prev s else none

/-- Search for a match of the token list at any position of the input. -/
def searchToksAux (toks : List RTok) : List Char → Option Char → Bool
  | [], prev => (matchToksFrom toks prev []).isSome
  | c :: rest, prev =>
      (matchToksFrom toks prev (c :: rest)).isSome || searchToksAux toks rest (some c)

/-- `/pattern/i.test(s)`. -/
def regexTest (toks : List RTok) (s : List Char) : Bool :=
  searchToksAux toks s none

/-- Global replace (`.replace(/pat/gi, rep)`): scan left to right, replace
each non-overlapping match; boundary context is taken from the original
string.  Fuel is the input length plus one; every pattern used contains a
nonempty literal, so each match consumes at least one character. -/
def replaceToksAux (toks : List RTok) (rep : List Char) :
    Nat → Option Char → List Char → List Char
  | 0, _, s => s
  | Nat.succ fuel, prev, s =>
      match matchToksFrom toks prev s with
      | some remaining =>
          let consumed := s.take (s.length - remaining.length)
          rep ++ replaceToksAux toks rep fuel
            (match consumed.getLast? with | some c => some c | none => prev) remaining
      | none =>
          match s with
          | [] => []
          | c :: rest => c :: replaceToksAux toks rep fuel (some c) rest

/-- `.replace(/pat/gi, rep)` on a character list. -/
def replaceToks (toks : List RTok) (rep : List Char) (s : List Char) : List Char :=
  replaceToksAux toks rep (s.length + 1) none s

/-- Case-sensitive substring test (JS `String.prototype.includes`). -/
def hasSub (pat : List Char) : List Char → Bool
  | [] => decide (pat = [])
  | c :: cs => pat.isPrefixOf (c :: cs) || hasSub pat cs

/-! ## Floor extraction (`XGBFeatures`, src/content.js lines 2162-2281) -/

/-- `XGBFeatures.normalizeOcrText`: fix common OCR typos via five sequential
global case-insensitive replacements; empty (falsy) input maps to the empty
string. -/
def normalizeOcrText (s : List Char) : List Char :=
  if s = [] then []
  else
    (replaceToks [RTok.wb, RTok.lit "17th".data, RTok.gap false, RTok.lit "flocr".data, RTok.wb] "17th Floor".data
      (replaceToks [RTok.wb, RTok.lit "2nth".data, RTok.wb] "2nd".data
        (replaceToks [RTok.wb, RTok.lit "floor".data, RTok.gap false, RTok.lit "flan".data, RTok.wb] "Floor Plan".data
          (replaceToks [RTok.wb, RTok.lit "fioor".data, RTok.wb] "floor".data
            (replaceToks [RTok.wb, RTok.lit "flocr".data, RTok.wb] "floor".data s)))))

/-- The exclusion regex `/(?:excluding|exclude|not\s+included|reduced\s+headroom)/i`
applied to one line. -/
def exclusionTest (line : List Char) : Bool :=
  regexTest [RTok.lit "excluding".data] line ||
  regexTest [RTok.lit "exclude".data] line ||
  regexTest [RTok.lit "not".data, RTok.gap true, RTok.lit "included".data] line ||
  regexTest [RTok.lit "reduced".data, RTok.gap true, RTok.lit "headroom".data] line

/-- Split on newline characters, as JS `split('\n')`. -/
def splitLines : List Char → List (List Char)
  | [] => [[]]
  | '\n' :: rest => [] :: splitLines rest
  | c :: rest =>
      match splitLines rest with
      | l :: ls => (c :: l) :: ls
      | [] => [[c]]

/-- `XGBFeatures.filterExclusionLines`: drop every line matching the
exclusion pattern and rejoin with newlines; falsy input maps to empty. -/
def filterExclusionLines (s : List Char) : List Char :=
  if s = [] then []
  else List.intercalate ['\n'] ((splitLines s).filter (fun l => ¬ exclusionTest l))

/-- `XGBFeatures.FLOOR_PATTERNS`: canonical floor name → translated regex
patterns, in source order.  Trailing `\s*(?:floor)?` suffixes (which can
match the empty string) are dropped. -/
def FLOOR_PATTERNS : List (String × List (List RTok)) :=
  [("basement", [[RTok.lit "basement".data], [RTok.lit "cellar".data]]),
   ("lower_ground",
     [[RTok.lit "lower".data, RTok.gap false, RTok.lit "ground".data],
      [RTok.lit "lgf".data, RTok.wb],
      [RTok.lit "lower".data, RTok.gap false, RTok.lit "level".data]]),
   ("ground",
     [[RTok.lit "ground".data],
      [RTok.wb, RTok.lit "gf".data, RTok.wb],
      [RTok.lit "street".data, RTok.gap false, RTok.lit "level".data],
      [RTok.lit "raised".data, RTok.gap false, RTok.lit "ground".data]]),
   ("mezzanine", [[RTok.lit "mezzanine".data], [RTok.lit "mezz".data, RTok.wb]]),
   ("first", [[RTok.lit "first".data], [RTok.lit "1st".data]]),
   ("second", [[RTok.lit "second".data], [RTok.lit "2nd".data]]),
   ("third", [[RTok.lit "third".data], [RTok.lit "3rd".data]]),
   ("fourth", [[RTok.lit "fourth".data], [RTok.lit "4th".data]]),
   ("fifth", [[RTok.lit "fifth".data], [RTok.lit "5th".data]]),
   ("sixth", [[RTok.lit "sixth".data], [RTok.lit "6th".data]]),
   ("seventh", [[RTok.lit "seventh".data], [RTok.lit "7th".data]]),
   ("eighth", [[RTok.lit "eighth".data], [RTok.lit "8th".data]]),
   ("ninth", [[RTok.lit "ninth".data], [RTok.lit "9th".data]]),
   ("tenth", [[RTok.lit "tenth".data], [RTok.lit "10th".data]]),
   ("penthouse", [[RTok.lit "penthouse".data]]),
   ("roof_terrace",
     [[RTok.lit "roof".data, RTok.gap false, RTok.lit "terrace".data],
      [RTok.lit "rooftop".data]])]

/-- The canonical floors whose pattern list has a match in the lowercased
filtered text (the JS `canonicalFloors` set, in insertion order). -/
def matchedFloors (textLower : List Char) : List String :=
  (FLOOR_PATTERNS.filter (fun p => p.2.any (fun toks => regexTest toks textLower))).map Prod.fst

/-- The result object of `XGBFeatures.extractFloors`. -/
structure FloorResult where
  has_basement : Nat
  has_ground : Nat
  has_first_floor : Nat
  has_second_floor : Nat
  has_third_floor : Nat
  has_fourth_plus : Nat
  has_roof_terrace : Nat
  floor_count : Nat
  is_multi_floor : Nat
  floors_detected : List String
deriving DecidableEq, Repr

/-- The all-zero `FloorResult` returned for falsy input. -/
def emptyFloorResult : FloorResult :=
  ⟨0, 0, 0, 0, 0, 0, 0, 0, 0, []⟩

/-- The "main" floors counted by `floor_count` (everything except
`roof_terrace`). -/
def mainFloors : List String :=
  ["basement", "lower_ground", "ground", "mezzanine", "first", "second", "third",
   "fourth", "fifth", "sixth", "seventh", "eighth", "ninth", "tenth", "penthouse"]

/-- `XGBFeatures.extractFloors`: normalize, drop exclusion lines, lowercase,
match the floor patterns, then derive the binary flags,
`floor_count` (distinct matched main floors) and
`is_multi_floor` (= `floor_count >= 2`). -/
def extractFloors (ocrText : String) : FloorResult :=
  if ocrText.data = [] then emptyFloorResult
  else
    let normalized := normalizeOcrText ocrText.data
    let filtered := filterExclusionLines normalized
    let textLower := filtered.map Char.toLower
    let cf := matchedFloors textLower
    let fourthPlus := ["fourth", "fifth", "sixth", "seventh", "eighth", "ninth", "tenth", "penthouse"]
    let floorCount := (mainFloors.filter (fun f => cf.contains f)).length
    { has_basement := if cf.contains "basement" || cf.contains "lower_ground" then 1 else 0
      has_ground := if cf.contains "ground" then 1 else 0
      has_first_floor := if cf.contains "first" || cf.contains "mezzanine" then 1 else 0
      has_second_floor := if cf.contains "second" then 1 else 0
      has_third_floor := if cf.contains "third" then 1 else 0
      has_fourth_plus := if fourthPlus.any (fun f => cf.contains f) then 1 else 0
      has_roof_terrace := if cf.contains "roof_terrace" then 1 else 0
      floor_count := floorCount
      is_multi_floor := if 2 ≤ floorCount then 1 else 0
      floors_detected :=
        (if cf.contains "basement" || cf.contains "lower_ground" then
          [if cf.contains "basement" then "basement" else "lower_ground"] else []) ++
        (if cf.contains "ground" then ["ground"] else []) ++
        (if cf.contains "first" || cf.contains "mezzanine" then ["first"] else []) ++
        (if cf.contains "second" then ["second"] else []) ++
        (if cf.contains "third" then ["third"] else []) ++
        (if fourthPlus.any (fun f => cf.contains f) then ["fourth+"] else []) ++
        (if cf.contains "roof_terrace" then ["roof_terrace"] else []) }

/-! ## One-hot encoders (`XGBFeatures`, src/content.js lines 2111-2122, 2555-2625) -/

/-- `XGBFeatures.POSTCODE_FEATURES`. -/
def POSTCODE_FEATURES : List String :=
  ["pc_SW3", "pc_SW7", "pc_W8", "pc_W2", "pc_SW5", "pc_SW11", "pc_SW10",
   "pc_NW8", "pc_W11", "pc_SW1X", "pc_NW3", "pc_SW1W", "pc_W14", "pc_NW1", "pc_W10"]

/-- `XGBFeatures.PROPERTY_TYPE_FEATURES` (21 columns). -/
def PROPERTY_TYPE_FEATURES : List String :=
  ["type_apartment", "type_detached", "type_duplex",
   "type_end of terrace", "type_flat", "type_ground flat",
   "type_house", "type_house boat", "type_house of multiple occupation",
   "type_house share", "type_link detached house", "type_long let",
   "type_maisonette", "type_mews", "type_not specified", "type_parking",
   "type_penthouse", "type_semi-detached", "type_studio",
   "type_terraced", "type_town house"]

/-- JS `str.replace(pat, rep)` with a string pattern: replace the first
occurrence only. -/
def replaceFirst (pat rep : List Char) : List Char → List Char
  | [] => []
  | c :: cs =>
      if pat.isPrefixOf (c :: cs) then rep ++ (c :: cs).drop pat.length
      else c :: replaceFirst pat rep cs

/-- `pc.replace('pc_', '')`. -/
def stripPc (pc : String) : String :=
  ⟨replaceFirst "pc_".data [] pc.data⟩

/-- `XGBFeatures.getPostcodeOneHot`: one entry per `POSTCODE_FEATURES`
column, 1 exactly where the district string equals the column name with its
`pc_` prefix removed. -/
def getPostcodeOneHot (postcodeDistrict : String) : List (String × Nat) :=
  POSTCODE_FEATURES.map (fun pc => (pc, if postcodeDistrict = stripPc pc then 1 else 0))

/-- The ordered `typeMapping` of `getPropertyTypeOneHot` (keyword → feature
column), in source order: most specific keywords first, `house` last. -/
def typeMapping : List (String × String) :=
  [("house of multiple occupation", "type_house of multiple occupation"),
   ("link detached house", "type_link detached house"),
   ("link detached", "type_link detached house"),
   ("ground floor flat", "type_ground flat"),
   ("ground flat", "type_ground flat"),
   ("end of terrace", "type_end of terrace"),
   ("semi-detached", "type_semi-detached"),
   ("house share", "type_house share"),
   ("house boat", "type_house boat"),
   ("houseboat", "type_house boat"),
   ("town house", "type_town house"),
   ("townhouse", "type_town house"),
   ("long let", "type_long let"),
   ("penthouse", "type_penthouse"),
   ("maisonette", "type_maisonette"),
   ("terraced", "type_terraced"),
   ("detached", "type_detached"),
   ("apartment", "type_apartment"),
   ("studio", "type_studio"),
   ("duplex", "type_duplex"),
   ("parking", "type_parking"),
   ("mews", "type_mews"),
   ("flat", "type_flat"),
   ("house", "type_house")]

/-- Trim ASCII whitespace from both ends (JS `String.prototype.trim` on the
ASCII inputs that occur here). -/
def trimChars (l : List Char) : List Char :=
  ((l.dropWhile isWsChar).reverse.dropWhile isWsChar).reverse

/-- `(propertyType || '').toLowerCase().trim()`; for a string the only falsy
value is `''`, so the JS default coincides with `getD ""`. -/
def normalizeType (propertyType : Option String) : List Char :=
  trimChars ((propertyType.getD "").data.map Char.toLower)

/-- The first-match-wins scan of `getPropertyTypeOneHot`: the first keyword
contained in the normalized type whose feature column exists in the result
object (`result.hasOwnProperty(featureName)`) wins; a keyword whose column
is absent neither matches nor stops the scan. -/
def findTypeMatch : List (String × String) → List Char → Option String
  | [], _ => none
  | (kw, feat) :: rest, nt =>
      if hasSub kw.data nt then
        (if PROPERTY_TYPE_FEATURES.contains feat then some feat else findTypeMatch rest nt)
      else findTypeMatch rest nt

/-- `XGBFeatures.getPropertyTypeOneHot`: all 21 columns 0 except the chosen
one; an unmatched input falls back to `type_flat`. -/
def getPropertyTypeOneHot (propertyType : Option String) : List (String × Nat) :=
  let chosen := (findTypeMatch typeMapping (normalizeType propertyType)).getD "type_flat"
  PROPERTY_TYPE_FEATURES.map (fun f => (f, if chosen = f then 1 else 0))

/-! ## Model loading (`XGBoostPredictor.load`, src/content.js lines 1952-1972) -/

/-- The only failure mode of `load`: `res.json()` rejects on a malformed
payload (the surrounding code has no other throw site). -/
inductive LoadError where
  | jsonParseFailure
deriving DecidableEq, Repr

/-- `XGBoostPredictor.load` after the fetches resolved: parse both payloads
(a `none` payload is malformed JSON and rejects), store them, set
`loaded = true`.  The parsed base score is only logged, never validated. -/
def load : Option ModelJson → Option (List String) → Except LoadError PredictorState
  | none, _ => .error .jsonParseFailure
  | some _, none => .error .jsonParseFailure
  | some mj, some fl => .ok ⟨mj, fl, true⟩

/-- The base score of a loaded state, as `predict` computes it. -/
def baseScoreOf (st : PredictorState) : JSNum :=
  parseBaseScore st.model.base_score

/-! ## Prediction result assembly (`analyzeProperty`, src/content.js lines 450-474) -/

/-- The error taxonomy the specification ascribes to the prediction step. -/
inductive PredError where
  | divisionByZero
  | invalidPredictionResult
deriving DecidableEq, Repr

/-- The object literal returned by `analyzeProperty`. -/
structure AnalyzeResult where
  asking_price : JSNum
  fair_value : JSNum
  range_low : JSNum
  range_high : JSNum
  premium_pct : JSNum
  size_sqft : JSNum
  size_source : String
  amenities_detected : List String
  postcode_district : String
  beds : JSNum
  baths : JSNum
deriving DecidableEq, Repr

/-- The tail of `analyzeProperty` from the computed `fairValue`
(`Math.round(Math.expm1(predLog))`, taken as input here because `expm1` is
transcendental) to the returned object: computes the premium percentage and
the ±21% band and returns the result object.  There is no throw site in this
region, so the `.error` branch of the `Except` is never taken. -/
def analyzeTail (fairValue askingPrice sizeSqft : JSNum) (sizeSource : String)
    (amenitiesDetected : List String) (postcodeDistrict : String)
    (beds baths : JSNum) : Except PredError AnalyzeResult :=
  let premiumPct :=
    JSNum.div
      (JSNum.round
        (JSNum.mul
          (JSNum.mul (JSNum.sub (JSNum.div askingPrice fairValue) (JSNum.num 1))
            (JSNum.num 100))
          (JSNum.num 10)))
      (JSNum.num 10)
  .ok
    { asking_price := askingPrice
      fair_value := fairValue
      range_low := JSNum.round (JSNum.mul fairValue (JSNum.num (79/100)))
      range_high := JSNum.round (JSNum.mul fairValue (JSNum.num (121/100)))
      premium_pct := premiumPct
      size_sqft := sizeSqft
      size_source := sizeSource
      amenities_detected := amenitiesDetected
      postcode_district := postcodeDistrict
      beds := beds
      baths := baths }

/-! ## Attribute defaults (`XGBFeatures.buildFeatures`, src/content.js lines 2627-2641) -/

/-- The raw attribute object passed to `buildFeatures`; `none` is an absent
(undefined) field. -/
structure RawAttrs where
  bedrooms : Option JSNum
  bathrooms : Option JSNum
  size_sqft : Option JSNum
  latitude : Option JSNum
  longitude : Option JSNum
  postcode : Option String
  propertyType : Option String
  description : Option String
  ocrText : Option String
  agentName : Option String
  pageUrl : Option String
  address : Option String
deriving DecidableEq, Repr

/-- JS truthiness of a number: 0 and NaN are falsy. -/
def jsTruthyNum : JSNum → Bool
  | JSNum.num q => ¬ (q = 0)
  | JSNum.nan => false
  | JSNum.inf => true
  | JSNum.ninf => true

/-- `x || dflt` on a possibly-absent JS number. -/
def jsOrNum (v : Option JSNum) (dflt : JSNum) : JSNum :=
  match v with
  | none => dflt
  | some x => if jsTruthyNum x then x else dflt

/-- `s || dflt` on a possibly-absent JS string (only `''` is falsy). -/
def jsOrStr (v : Option String) (dflt : String) : String :=
  match v with
  | none => dflt
  | some s => if s = "" then dflt else s

/-- The defaulted values bound at the top of `buildFeatures` (the rest of the
function reads the raw `data` object only through these bindings and through
`data.price_pcm`). -/
structure DefaultedAttrs where
  beds : JSNum
  baths : JSNum
  sqft : JSNum
  lat : JSNum
  lon : JSNum
  postcode : String
  propertyType : String
  description : String
  ocrText : String
  agentName : String
  pageUrl : String
  address : String
deriving DecidableEq, Repr

/-- The default-application prefix of `XGBFeatures.buildFeatures`
(src/content.js lines 2628-2640); `href` stands for `window.location.href`,
the default of `pageUrl`.  The fixed reference coordinate is
`CITY_CENTER = (51.5074, -0.1278)`. -/
def applyDefaults (href : String) (d : RawAttrs) : DefaultedAttrs :=
  let beds := jsOrNum d.bedrooms (JSNum.num 1)
  { beds := beds
    baths := jsOrNum d.bathrooms (JSNum.num 1)
    sqft := jsOrNum d.size_sqft (JSNum.mul beds (JSNum.num 450))
    lat := jsOrNum d.latitude (JSNum.num (515074/10000))
    lon := jsOrNum d.longitude (JSNum.num (-1278/10000))
    postcode := jsOrStr d.postcode "SW3"
    propertyType := jsOrStr d.propertyType "flat"
    description := jsOrStr d.description ""
    ocrText := jsOrStr d.ocrText ""
    agentName := jsOrStr d.agentName ""
    pageUrl := jsOrStr d.pageUrl href
    address := jsOrStr d.address "" }

/-! ## Small fixtures and dictionary operations used in the theorems -/

/-- Point update of a feature dictionary (setting a name explicitly). -/
def dictUpdate (d : FeatureDict) (name : String) (v : JSNum) : FeatureDict :=
  fun n => if n = name then some v else d n

/-- A one-tree fixture: the root (node 0) splits feature index 0 at threshold
`T`; node 1 is the left leaf with value `lL`, node 2 the right leaf with value
`rL`; the root's missing-value direction is `dL`. -/
def singleSplitTree (T lL rL : ℚ) (dL : Bool) : Tree :=
  { left_children := [1, -1, -1]
    right_children := [2, -1, -1]
    split_indices := [0, 0, 0]
    split_conditions := [T, lL, rL]
    default_left := some [dL, true, true] }

/-- A loaded artifact with base score `B`, the single-split tree, and feature
order `["f0"]`. -/
def singleSplitState (B T lL rL : ℚ) (dL : Bool) : PredictorState :=
  { model := { base_score := .num B, trees := [singleSplitTree T lL rL dL] }
    features := ["f0"]
    loaded := true }

/-- The vector binding only the name `f0`. -/
def singleDict (v : JSNum) : FeatureDict :=
  fun n => if n = "f0" then some v else none

/-! # Theorems -/

/-- The ordered feature array that `predict` builds and the spec's direct
name lookup agree at every (possibly undefined) split index. -/
theorem featureValue_eq (fo : List String) (dict : FeatureDict) (si : Option Nat) :
    (si.bind (fun i => (buildFeatureArray fo dict)[i]?)).getD (JSNum.num 0) =
    ((si.bind (fun i => fo[i]?)).bind dict).getD (JSNum.num 0) := by
  cases si with
  | none => rfl
  | some i =>
      simp only [Option.some_bind, buildFeatureArray, List.getElem?_map]
      cases h : fo[i]? with
      | none => rfl
      | some n => cases dict n <;> rfl

/-- The code's tree walk over the prebuilt feature array equals the spec's
walk that looks feature names up in the vector directly. -/
theorem predictTreeAux_eq_spec (t : Tree) (fo : List String) (dict : FeatureDict) :
    ∀ (fuel : Nat) (nid : Option Int),
      predictTreeAux fuel t (buildFeatureArray fo dict) nid =
      specTreeValue fuel t fo dict nid := by
  intro fuel
  induction fuel with
  | zero => intro nid; rfl
  | succ n ih =>
      intro nid
      simp only [predictTreeAux, specTreeValue, featureValue_eq, ih]

/-- The tree-summation loops of code and spec agree. -/
theorem sumTrees_eq_spec (fo : List String) (dict : FeatureDict) :
    ∀ (ts : List Tree) (fuel : Nat) (acc : JSNum),
      sumTrees fuel ts (buildFeatureArray fo dict) acc =
      sumTreesSpec fuel ts fo dict acc := by
  intro ts
  induction ts with
  | nil => intro fuel acc; rfl
  | cons t rest ih =>
      intro fuel acc
      simp only [sumTrees, sumTreesSpec, predictTreeAux_eq_spec, ih]

/-- C1: on a loaded artifact, `predict` returns the base score plus, for each
tree, the value of the traversal from node 0 in which a node is a leaf iff
`leftChild == -1` (leaf value read from `splitCondition`), a NaN feature value
moves in the `defaultLeft` direction, and otherwise the walk moves left iff
the value is strictly less than `splitCondition`, with missing-name lookups
defaulting to 0; in particular on the single-split artifact with base score
`B` and threshold `T`, `evaluate(T-1) = B + leftLeaf`,
`evaluate(T) = B + rightLeaf`, and `evaluate(NaN)` follows `defaultLeft`. -/
theorem C1_predict_matches_spec_traversal :
    (∀ (fuel : Nat) (st : PredictorState) (dict : FeatureDict), st.loaded = true →
        predict fuel st dict = .ok (specEvaluate fuel st dict)) ∧
    (∀ (B T lL rL : ℚ) (dL : Bool),
        predict 2 (singleSplitState B T lL rL dL) (singleDict (JSNum.num (T - 1))) =
          .ok (some (JSNum.num (B + lL))) ∧
        predict 2 (singleSplitState B T lL rL dL) (singleDict (JSNum.num T)) =
          .ok (some (JSNum.num (B + rL))) ∧
        predict 2 (singleSplitState B T lL rL dL) (singleDict JSNum.nan) =
          .ok (some (JSNum.num (B + if dL then lL else rL)))) := by
  constructor
  · intro fuel st dict h
    unfold predict
    rw [h]
    simp only [Bool.true_eq_false, if_false]
    rw [sumTrees_eq_spec]
    rfl
  · intro B T lL rL dL
    have hlt : T - 1 < T := by linarith
    have hnlt : ¬ T < T := lt_irrefl T
    refine ⟨?_, ?_, ?_⟩
    · show predict (Nat.succ (Nat.succ 0)) _ _ = _
      simp [predict, singleSplitState, singleSplitTree, singleDict, sumTrees,
        predictTreeAux, buildFeatureArray, jsIndex, splitCondAt, defaultLeftAt,
        parseBaseScore, JSNum.lt, JSNum.isNaN, JSNum.add, hlt]
    · show predict (Nat.succ (Nat.succ 0)) _ _ = _
      simp [predict, singleSplitState, singleSplitTree, singleDict, sumTrees,
        predictTreeAux, buildFeatureArray, jsIndex, splitCondAt, defaultLeftAt,
        parseBaseScore, JSNum.lt, JSNum.isNaN, JSNum.add, hnlt]
    · show predict (Nat.succ (Nat.succ 0)) _ _ = _
      cases dL <;>
        simp [predict, singleSplitState, singleSplitTree, singleDict, sumTrees,
          predictTreeAux, buildFeatureArray, jsIndex, splitCondAt, defaultLeftAt,
          parseBaseScore, JSNum.lt, JSNum.isNaN, JSNum.add]

/-- Witness for C1 at a concrete artifact and vectors. -/
theorem C1_predict_matches_spec_traversal_witness :
    predict 2 (singleSplitState 5 10 3 4 true) (singleDict (JSNum.num (10 - 1))) =
      .ok (some (JSNum.num (5 + 3))) ∧
    predict 1 (singleSplitState 5 10 3 4 true) (singleDict (JSNum.num 9)) =
      .ok (specEvaluate 1 (singleSplitState 5 10 3 4 true) (singleDict (JSNum.num 9))) :=
  ⟨(C1_predict_matches_spec_traversal.2 5 10 3 4 true).1,
   C1_predict_matches_spec_traversal.1 1 (singleSplitState 5 10 3 4 true)
     (singleDict (JSNum.num 9)) rfl⟩

/-- C4: omitting a feature name from the vector gives exactly the same
prediction as binding that name explicitly to 0 (`featureDict[name] ?? 0`). -/
theorem C4_missing_name_same_as_zero (fuel : Nat) (st : PredictorState)
    (dict : FeatureDict) (name : String) (h : dict name = none) :
    predict fuel st dict = predict fuel st (dictUpdate dict name (JSNum.num 0)) := by
  have harr : buildFeatureArray st.features dict =
      buildFeatureArray st.features (dictUpdate dict name (JSNum.num 0)) := by
    unfold buildFeatureArray
    congr 1
    funext n
    by_cases hn : n = name
    · subst hn; simp [dictUpdate, h]
    · simp [dictUpdate, hn]
  unfold predict
  rw [harr]

/-- Witness for C4: the empty vector versus the vector binding `f0` to 0. -/
theorem C4_missing_name_same_as_zero_witness :
    predict 1 { model := { base_score := .num 0, trees := [] }, features := ["f0"], loaded := true }
      (fun _ => none) =
    predict 1 { model := { base_score := .num 0, trees := [] }, features := ["f0"], loaded := true }
      (dictUpdate (fun _ => none) "f0" (JSNum.num 0)) :=
  C4_missing_name_same_as_zero 1
    { model := { base_score := .num 0, trees := [] }, features := ["f0"], loaded := true }
    (fun _ => none) "f0" rfl

/-- C2 counterexample: on the transcript "Lower Ground Floor\nFirst Floor" the
pattern for the canonical floor `ground` (which has no word boundary) also
matches inside "lower ground floor", so `floor_count` is 3, not the claimed 2. -/
theorem C2_floor_extraction_counterexample :
    (extractFloors "Lower Ground Floor\nFirst Floor").floor_count = 3 ∧
    (extractFloors "Lower Ground Floor\nFirst Floor").floor_count ≠ 2 := by
  decide

/-- C2 (amended): the transcript "Lower Ground Floor\nFirst Floor" yields
`has_basement = 1`, `has_ground = 1` (the `ground` pattern matches inside
"lower ground floor"), `has_first_floor = 1`, `floor_count = 3` and
`is_multi_floor = 1`; the transcript "Excluding basement\nFirst Floor" yields
`has_basement = 0` and `has_first_floor = 1` because the exclusion line is
discarded before matching. -/
theorem C2_floor_extraction_amended :
    ((extractFloors "Lower Ground Floor\nFirst Floor").has_basement = 1 ∧
     (extractFloors "Lower Ground Floor\nFirst Floor").has_ground = 1 ∧
     (extractFloors "Lower Ground Floor\nFirst Floor").has_first_floor = 1 ∧
     (extractFloors "Lower Ground Floor\nFirst Floor").floor_count = 3 ∧
     (extractFloors "Lower Ground Floor\nFirst Floor").is_multi_floor = 1) ∧
    ((extractFloors "Excluding basement\nFirst Floor").has_basement = 0 ∧
     (extractFloors "Excluding basement\nFirst Floor").has_first_floor = 1) := by
  decide

/-- C3 counterexample: with `fairValue = 0` the prediction step does not fail
with any error; it returns a full result object whose premium percentage is
Infinity. -/
theorem C3_zero_fairValue_counterexample :
    analyzeTail (JSNum.num 0) (JSNum.num 3500) (JSNum.num 750) "estimated" [] "SW3"
      (JSNum.num 2) (JSNum.num 1) =
    .ok { asking_price := JSNum.num 3500, fair_value := JSNum.num 0,
          range_low := JSNum.num 0, range_high := JSNum.num 0,
          premium_pct := JSNum.inf, size_sqft := JSNum.num 750,
          size_source := "estimated", amenities_detected := [],
          postcode_district := "SW3", beds := JSNum.num 2, baths := JSNum.num 1 } := by
  simp only [analyzeTail, Except.ok.injEq, AnalyzeResult.mk.injEq]
  norm_num [JSNum.div, JSNum.sub, JSNum.neg, JSNum.add, JSNum.mul, JSNum.round]

/-- C3 (amended): the prediction tail never fails — it always returns a
result object; when `fairValue` is 0 (and the asking price is nonzero) the
returned premium percentage is non-finite, and when `fairValue` is NaN the
premium is NaN.  No DivisionByZero/InvalidPredictionResult error is raised. -/
theorem C3_zero_fairValue_nonfinite_premium :
    (∀ (fv p sq : JSNum) (ss : String) (ad : List String) (pd : String) (b ba : JSNum),
        (analyzeTail fv p sq ss ad pd b ba).isOk = true) ∧
    (∀ (p sq : JSNum) (ss : String) (ad : List String) (pd : String) (b ba : JSNum)
        (r : AnalyzeResult), p ≠ JSNum.num 0 →
        analyzeTail (JSNum.num 0) p sq ss ad pd b ba = .ok r →
        r.premium_pct.isFinite = false) ∧
    (∀ (p sq : JSNum) (ss : String) (ad : List String) (pd : String) (b ba : JSNum)
        (r : AnalyzeResult),
        analyzeTail JSNum.nan p sq ss ad pd b ba = .ok r →
        r.premium_pct = JSNum.nan) := by
  refine ⟨fun fv p sq ss ad pd b ba => rfl, ?_, ?_⟩
  · intro p sq ss ad pd b ba r hp h
    simp only [analyzeTail, Except.ok.injEq] at h
    subst h
    cases p with
    | num a =>
        have ha : a ≠ 0 := fun h0 => hp (by rw [h0])
        rcases ha.lt_or_lt with h1 | h1
        · simp [JSNum.div, JSNum.sub, JSNum.neg, JSNum.add, JSNum.mul, JSNum.round,
            JSNum.isFinite, ha, h1, not_lt_of_gt h1, asymm h1]
        · simp [JSNum.div, JSNum.sub, JSNum.neg, JSNum.add, JSNum.mul, JSNum.round,
            JSNum.isFinite, ha, h1]
    | nan => rfl
    | inf =>
        simp [JSNum.div, JSNum.sub, JSNum.neg, JSNum.add, JSNum.mul, JSNum.round,
          JSNum.isFinite]
    | ninf =>
        simp [JSNum.div, JSNum.sub, JSNum.neg, JSNum.add, JSNum.mul, JSNum.round,
          JSNum.isFinite]
  · intro p sq ss ad pd b ba r h
    simp only [analyzeTail, Except.ok.injEq] at h
    subst h
    cases p <;> rfl

/-- Witness for C3 (amended) at `fairValue = 0`, asking price 3500. -/
theorem C3_zero_fairValue_nonfinite_premium_witness :
    (analyzeTail (JSNum.num 0) (JSNum.num 3500) (JSNum.num 750) "ocr" [] "SW3"
      (JSNum.num 2) (JSNum.num 1)).isOk = true ∧
    ({ asking_price := JSNum.num 3500, fair_value := JSNum.num 0,
       range_low := JSNum.num 0, range_high := JSNum.num 0,
       premium_pct := JSNum.inf, size_sqft := JSNum.num 750,
       size_source := "ocr", amenities_detected := [],
       postcode_district := "SW3", beds := JSNum.num 2,
       baths := JSNum.num 1 } : AnalyzeResult).premium_pct.isFinite = false := by
  refine ⟨C3_zero_fairValue_nonfinite_premium.1 (JSNum.num 0) (JSNum.num 3500)
      (JSNum.num 750) "ocr" [] "SW3" (JSNum.num 2) (JSNum.num 1),
    C3_zero_fairValue_nonfinite_premium.2.1 (JSNum.num 3500) (JSNum.num 750) "ocr" [] "SW3"
      (JSNum.num 2) (JSNum.num 1) _ (by simp) ?_⟩
  simp only [analyzeTail, Except.ok.injEq, AnalyzeResult.mk.injEq]
  norm_num [JSNum.div, JSNum.sub, JSNum.neg, JSNum.add, JSNum.mul, JSNum.round]

/-- C5: the first-match-wins scan over the ordered keyword list classifies
"end of terrace house" as `type_end of terrace` (not `type_house` or
`type_terraced`), and an input matching no keyword falls back to `type_flat`. -/
theorem C5_type_precedence :
    ((getPropertyTypeOneHot (some "end of terrace house")).lookup "type_end of terrace" =
        some 1 ∧
     (getPropertyTypeOneHot (some "end of terrace house")).lookup "type_house" = some 0 ∧
     (getPropertyTypeOneHot (some "end of terrace house")).lookup "type_terraced" = some 0) ∧
    (∀ pt : Option String, findTypeMatch typeMapping (normalizeType pt) = none →
        (getPropertyTypeOneHot pt).lookup "type_flat" = some 1) := by
  constructor
  · exact ⟨by decide, by decide, by decide⟩
  · intro pt h
    simp only [getPropertyTypeOneHot, h]
    decide

/-- Witness for C5: "bungalow" matches no keyword and falls back to `type_flat`. -/
theorem C5_type_precedence_witness :
    (getPropertyTypeOneHot (some "bungalow")).lookup "type_flat" = some 1 :=
  C5_type_precedence.2 (some "bungalow") (by decide)

/-- Multiplying by 100 and then by 10 equals multiplying by 1000, also through
the JS special values. -/
theorem jsMul_hundred_ten (x : JSNum) :
    JSNum.mul (JSNum.mul x (JSNum.num 100)) (JSNum.num 10) =
    JSNum.mul x (JSNum.num 1000) := by
  cases x with
  | num a => simp only [JSNum.mul]; ring_nf
  | nan => rfl
  | inf => norm_num [JSNum.mul]
  | ninf => norm_num [JSNum.mul]

/-- C6: every returned result satisfies `rangeLow = round(fairValue * 0.79)`,
`rangeHigh = round(fairValue * 1.21)` and
`premiumPct = round((askingPrice / fairValue - 1) * 1000) / 10`; in particular
`fairValue = 3000` gives 2370/3630 and asking 3500 against 3000 gives 16.7. -/
theorem C6_range_and_premium_formulas :
    (∀ (fv p sq : JSNum) (ss : String) (ad : List String) (pd : String) (b ba : JSNum)
        (r : AnalyzeResult), analyzeTail fv p sq ss ad pd b ba = .ok r →
        r.range_low = JSNum.round (JSNum.mul fv (JSNum.num (79/100))) ∧
        r.range_high = JSNum.round (JSNum.mul fv (JSNum.num (121/100))) ∧
        r.premium_pct =
          JSNum.div
            (JSNum.round (JSNum.mul (JSNum.sub (JSNum.div p fv) (JSNum.num 1))
              (JSNum.num 1000)))
            (JSNum.num 10)) ∧
    (analyzeTail (JSNum.num 3000) (JSNum.num 3500) (JSNum.num 750) "page" [] "SW3"
        (JSNum.num 2) (JSNum.num 1) =
      .ok { asking_price := JSNum.num 3500, fair_value := JSNum.num 3000,
            range_low := JSNum.num 2370, range_high := JSNum.num 3630,
            premium_pct := JSNum.num (167/10), size_sqft := JSNum.num 750,
            size_source := "page", amenities_detected := [],
            postcode_district := "SW3", beds := JSNum.num 2, baths := JSNum.num 1 }) := by
  constructor
  · intro fv p sq ss ad pd b ba r h
    simp only [analyzeTail, Except.ok.injEq] at h
    subst h
    exact ⟨rfl, rfl, by simp only [← jsMul_hundred_ten]⟩
  · simp only [analyzeTail, Except.ok.injEq, AnalyzeResult.mk.injEq]
    norm_num [JSNum.div, JSNum.sub, JSNum.neg, JSNum.add, JSNum.mul, JSNum.round]

/-- Witness for C6 on the concrete 3000/3500 result. -/
theorem C6_range_and_premium_formulas_witness :
    ({ asking_price := JSNum.num 3500, fair_value := JSNum.num 3000,
       range_low := JSNum.num 2370, range_high := JSNum.num 3630,
       premium_pct := JSNum.num (167/10), size_sqft := JSNum.num 750,
       size_source := "page", amenities_detected := [],
       postcode_district := "SW3", beds := JSNum.num 2,
       baths := JSNum.num 1 } : AnalyzeResult).range_low =
      JSNum.round (JSNum.mul (JSNum.num 3000) (JSNum.num (79/100))) ∧
    ({ asking_price := JSNum.num 3500, fair_value := JSNum.num 3000,
       range_low := JSNum.num 2370, range_high := JSNum.num 3630,
       premium_pct := JSNum.num (167/10), size_sqft := JSNum.num 750,
       size_source := "page", amenities_detected := [],
       postcode_district := "SW3", beds := JSNum.num 2,
       baths := JSNum.num 1 } : AnalyzeResult).range_high =
      JSNum.round (JSNum.mul (JSNum.num 3000) (JSNum.num (121/100))) ∧
    ({ asking_price := JSNum.num 3500, fair_value := JSNum.num 3000,
       range_low := JSNum.num 2370, range_high := JSNum.num 3630,
       premium_pct := JSNum.num (167/10), size_sqft := JSNum.num 750,
       size_source := "page", amenities_detected := [],
       postcode_district := "SW3", beds := JSNum.num 2,
       baths := JSNum.num 1 } : AnalyzeResult).premium_pct =
      JSNum.div
        (JSNum.round (JSNum.mul
          (JSNum.sub (JSNum.div (JSNum.num 3500) (JSNum.num 3000)) (JSNum.num 1))
          (JSNum.num 1000)))
        (JSNum.num 10) :=
  C6_range_and_premium_formulas.1 (JSNum.num 3000) (JSNum.num 3500) (JSNum.num 750)
    "page" [] "SW3" (JSNum.num 2) (JSNum.num 1) _ C6_range_and_premium_formulas.2

/-- C7 counterexample: both payloads are well-formed JSON but `base_score`
is the string "abc", which parses to NaN; `load` nevertheless completes
successfully with `loaded = true`, so the loaded state's base score is NaN. -/
theorem C7_load_counterexample :
    load (some { base_score := .str "abc", trees := [] }) (some []) =
      .ok { model := { base_score := .str "abc", trees := [] },
            features := [], loaded := true } ∧
    baseScoreOf { model := { base_score := .str "abc", trees := [] },
                  features := [], loaded := true } = JSNum.nan := by
  exact ⟨rfl, by decide⟩

/-- C7 (amended): `load` fails (with its JSON parse error) exactly when one of
the two payloads is malformed; it performs no validation of `base_score`, so
it can complete successfully leaving a loaded state whose base score is NaN
(see the counterexample). -/
theorem C7_load_no_baseScore_validation :
    (∀ (mj : ModelJson) (fl : List String),
        load (some mj) (some fl) = .ok { model := mj, features := fl, loaded := true }) ∧
    (∀ f, load none f = .error .jsonParseFailure) ∧
    (∀ mj, load (some mj) none = .error .jsonParseFailure) :=
  ⟨fun _ _ => rfl, fun _ => rfl, fun _ => rfl⟩

/-- Counting lemma: in a list whose image under `g` has no duplicates,
exactly one element maps to `d` when `d` is in the image, else none. -/
theorem countP_eq_ite_mem {α β : Type} [DecidableEq β] (g : α → β) (d : β) :
    ∀ l : List α, (l.map g).Nodup →
      l.countP (fun x => decide (d = g x)) = if d ∈ l.map g then 1 else 0 := by
  intro l
  induction l with
  | nil => intro _; simp
  | cons x xs ih =>
      intro h
      simp only [List.map_cons, List.nodup_cons] at h
      obtain ⟨hx, hxs⟩ := h
      rw [List.countP_cons, ih hxs]
      by_cases hd : d = g x
      · have h0 : d ∉ xs.map g := hd ▸ hx
        simp [hd, h0]
        intro y hy hgy
        exact hx (hgy ▸ List.mem_map_of_mem g hy)
      · simp [hd, List.mem_cons]

/-- C8: for every district string, the postcode one-hot sets exactly one flag
to 1 when the district equals one of the fixed column names with the `pc_`
prefix stripped, and all flags to 0 otherwise; in particular at most one flag
is ever 1 (no "other" bucket). -/
theorem C8_postcode_onehot_at_most_one (d : String) :
    ((getPostcodeOneHot d).countP (fun p => decide (p.2 = 1)) =
      if d ∈ POSTCODE_FEATURES.map stripPc then 1 else 0) ∧
    (getPostcodeOneHot d).countP (fun p => decide (p.2 = 1)) ≤ 1 := by
  have hmain : (getPostcodeOneHot d).countP (fun p => decide (p.2 = 1)) =
      if d ∈ POSTCODE_FEATURES.map stripPc then 1 else 0 := by
    unfold getPostcodeOneHot
    rw [List.countP_map]
    have hcongr : ∀ pc ∈ POSTCODE_FEATURES,
        (((fun p : String × Nat => decide (p.2 = 1)) ∘
          (fun pc => (pc, if d = stripPc pc then 1 else 0))) pc = true ↔
        (fun x => decide (d = stripPc x)) pc = true) := by
      intro pc _
      by_cases h : d = stripPc pc <;> simp [h]
    rw [List.countP_congr hcongr]
    exact countP_eq_ite_mem stripPc d POSTCODE_FEATURES (by decide)
  exact ⟨hmain, by rw [hmain]; split <;> norm_num⟩

/-- Every feature name returned by the first-match-wins scan is one of the 21
one-hot columns (the scan checks `result.hasOwnProperty(featureName)`). -/
theorem findTypeMatch_mem :
    ∀ (l : List (String × String)) (nt : List Char) (f : String),
      findTypeMatch l nt = some f → f ∈ PROPERTY_TYPE_FEATURES := by
  intro l
  induction l with
  | nil => intro nt f h; simp [findTypeMatch] at h
  | cons kv rest ih =>
      intro nt f h
      obtain ⟨kw, feat⟩ := kv
      simp only [findTypeMatch] at h
      by_cases h1 : hasSub kw.data nt
      · rw [if_pos h1] at h
        by_cases h2 : PROPERTY_TYPE_FEATURES.contains feat = true
        · rw [if_pos h2] at h
          obtain rfl : feat = f := by injection h
          simpa using h2
        · rw [if_neg h2] at h
          exact ih nt f h
      · rw [if_neg h1] at h
        exact ih nt f h

/-- C9: for every property-type input (absent, empty or arbitrary), the
property-type one-hot sets exactly one of the 21 flags to 1 — unmatched
inputs fall back to `type_flat`. -/
theorem C9_type_onehot_exactly_one (pt : Option String) :
    (getPropertyTypeOneHot pt).countP (fun p => decide (p.2 = 1)) = 1 := by
  unfold getPropertyTypeOneHot
  have hmem : ((findTypeMatch typeMapping (normalizeType pt)).getD "type_flat")
      ∈ PROPERTY_TYPE_FEATURES := by
    cases hf : findTypeMatch typeMapping (normalizeType pt) with
    | none => simp only [hf, Option.getD_none]; decide
    | some f => simpa [hf] using findTypeMatch_mem typeMapping (normalizeType pt) f hf
  set chosen := (findTypeMatch typeMapping (normalizeType pt)).getD "type_flat" with hch
  rw [List.countP_map]
  have hcongr : ∀ f ∈ PROPERTY_TYPE_FEATURES,
      (((fun p : String × Nat => decide (p.2 = 1)) ∘
        (fun f => (f, if chosen = f then 1 else 0))) f = true ↔
      (fun x => decide (chosen = (fun y => y) x)) f = true) := by
    intro f _
    by_cases h : chosen = f <;> simp [h]
  rw [List.countP_congr hcongr]
  have h2 := countP_eq_ite_mem (fun y : String => y) chosen PROPERTY_TYPE_FEATURES
    (by simpa using (by decide : PROPERTY_TYPE_FEATURES.Nodup))
  rw [h2]
  simpa using hmem

/-- C10: `buildFeatures` cannot distinguish an explicit 0 attribute from an
absent one (JS `||` defaulting): with bedrooms or bathrooms 0 the default 1
is substituted, with `size_sqft` 0 the default `beds * 450`, and with a zero
coordinate the fixed reference coordinate (51.5074, -0.1278). -/
theorem C10_zero_attribute_equals_absent :
    (∀ (href : String) (d : RawAttrs),
        applyDefaults href { d with bedrooms := some (JSNum.num 0) } =
        applyDefaults href { d with bedrooms := none }) ∧
    (∀ (href : String) (d : RawAttrs),
        applyDefaults href { d with bathrooms := some (JSNum.num 0) } =
        applyDefaults href { d with bathrooms := none }) ∧
    (∀ (href : String) (d : RawAttrs),
        applyDefaults href { d with size_sqft := some (JSNum.num 0) } =
        applyDefaults href { d with size_sqft := none }) ∧
    (∀ (href : String) (d : RawAttrs),
        applyDefaults href { d with latitude := some (JSNum.num 0) } =
        applyDefaults href { d with latitude := none }) ∧
    (∀ (href : String) (d : RawAttrs),
        applyDefaults href { d with longitude := some (JSNum.num 0) } =
        applyDefaults href { d with longitude := none }) ∧
    (∀ (href : String) (d : RawAttrs),
        (applyDefaults href { d with bedrooms := some (JSNum.num 0) }).beds = JSNum.num 1) ∧
    (∀ (href : String) (d : RawAttrs),
        (applyDefaults href { d with bathrooms := some (JSNum.num 0) }).baths = JSNum.num 1) ∧
    (∀ (href : String) (d : RawAttrs),
        (applyDefaults href { d with size_sqft := some (JSNum.num 0) }).sqft =
          JSNum.mul (applyDefaults href d).beds (JSNum.num 450)) ∧
    (∀ (href : String) (d : RawAttrs),
        (applyDefaults href { d with latitude := some (JSNum.num 0) }).lat =
          JSNum.num (515074/10000)) ∧
    (∀ (href : String) (d : RawAttrs),
        (applyDefaults href { d with longitude := some (JSNum.num 0) }).lon =
          JSNum.num (-1278/10000)) := by
  have hz : jsTruthyNum (JSNum.num 0) = false := by simp [jsTruthyNum]
  refine ⟨?_, ?_, ?_, ?_, ?_, ?_, ?_, ?_, ?_, ?_⟩ <;>
    · intro href d
      simp [applyDefaults, jsOrNum, hz]

end RFV
